import Mathlib

/-!
Verification development for the reliable data transfer (RDT) library
(ReliableSocket.h / ReliableSocket.cpp).

The socket code is a stop-and-wait protocol over a datagram channel.  We embed
it shallowly: the connection state is an explicit structure, and each blocking
loop of the source becomes a pure function over an explicit trace of channel
events (one trace element per completed loop iteration).  Machine integers are
modelled as Nat / Int with explicit reduction modulo 2 ^ 32 where the source
uses 32-bit values; the truncating double-to-int conversions of the RTT
estimator are modelled by an explicit round-toward-zero division.
-/

/-- Message type tag (enum RDTMessageType : uint8_t in ReliableSocket.h). -/
inductive RDTMessageType where
  | RDT_SYN
  | RDT_SYNACK
  | RDT_ACK
  | RDT_DATA
  | RDT_CLOSE
  deriving DecidableEq, Repr

/-- Header of a segment (struct RDTHeader).  The two 32-bit fields are carried
as their host-order values (naturals below 2 ^ 32); htonl / ntohl cancel on a
round trip, and the receive path copies the incoming wire bytes verbatim into
the outgoing acknowledgment, so working with host-order values is faithful. -/
structure RDTHeader where
  sequence_number : Nat
  ack_number : Nat
  type : RDTMessageType
  deriving DecidableEq, Repr

/-- A wire segment: header followed by the payload bytes. -/
structure Segment where
  header : RDTHeader
  payload : List Nat
  deriving DecidableEq, Repr

/-- Connection state (enum connection_status in ReliableSocket.h). -/
inductive connection_status where
  | INIT
  | ESTABLISHED
  | FIN
  | CLOSED
  deriving DecidableEq, Repr

/-- 2 ^ 32, the modulus of the 32-bit counters and of uint32_t arithmetic. -/
def U32 : Nat := 2 ^ 32

/-- Round-up alignment of an offset, as the C++ ABI lays out struct fields. -/
def alignUp (n a : Nat) : Nat := ((n + a - 1) / a) * a

/-- Size and alignment of a standard-layout C++ struct given the
(size, alignment) pairs of its fields in declaration order: every field is
placed at the next offset aligned to its own alignment, and the struct size is
the end offset rounded up to the struct alignment (the maximum field
alignment). -/
def structLayout (fields : List (Nat × Nat)) : Nat × Nat :=
  let step := fun (acc : Nat × Nat) (fd : Nat × Nat) =>
    (alignUp acc.1 fd.2 + fd.1, max acc.2 fd.2)
  let r := fields.foldl step (0, 1)
  (alignUp r.1 r.2, r.2)

/-- Byte offsets of the fields of a standard-layout C++ struct. -/
def structOffsets (fields : List (Nat × Nat)) : List Nat :=
  (fields.foldl
    (fun (acc : List Nat × Nat) (fd : Nat × Nat) =>
      let off := alignUp acc.2 fd.2
      (acc.1 ++ [off], off + fd.1))
    ([], 0)).1

/-- The (size, alignment) pairs of the fields of struct RDTHeader:
uint32_t sequence_number, uint32_t ack_number, and the uint8_t-backed enum
RDTMessageType type. -/
def rdtHeaderFields : List (Nat × Nat) := [(4, 4), (4, 4), (1, 1)]

/-- sizeof(RDTHeader): the number of bytes the header occupies on the wire,
since the source always transmits sizeof(RDTHeader) header bytes and places
the payload at hdr + 1. -/
def sizeofRDTHeader : Nat := (structLayout rdtHeaderFields).1

/-- static const int MAX_SEG_SIZE = 1400. -/
def MAX_SEG_SIZE : Nat := 1400

/-- static const int MAX_DATA_SIZE = MAX_SEG_SIZE - sizeof(RDTHeader). -/
def MAX_DATA_SIZE : Nat := MAX_SEG_SIZE - sizeofRDTHeader

/-- static const int TIME_WAIT = 4000. -/
def TIME_WAIT : Nat := 4000

/-- Number of bytes handed to send() for a segment:
sizeof(RDTHeader) + payload length. -/
def wireSize (g : Segment) : Nat := sizeofRDTHeader + g.payload.length

/-- The state of a ReliableSocket object, together with the one piece of
kernel state the code manipulates through setsockopt: the SO_RCVTIMEO receive
timeout (timeout_length, in ms; 0 means wait forever) and whether the file
descriptor is still open (sock_open). -/
structure ReliableSocket where
  sequence_number : Nat
  expected_sequence_number : Nat
  estimated_rtt : Int
  current_rtt : Int
  dev_rtt : Int
  state : connection_status
  timeout_length : Nat
  sock_open : Bool
  deriving DecidableEq, Repr

/-- The constructor ReliableSocket::ReliableSocket(): sequence counters 0,
estimated_rtt = 100, dev_rtt = 10, current_rtt = 0, state = INIT. -/
def ReliableSocket.init : ReliableSocket :=
  { sequence_number := 0
    expected_sequence_number := 0
    estimated_rtt := 100
    current_rtt := 0
    dev_rtt := 10
    state := connection_status.INIT
    timeout_length := 0
    sock_open := true }

/-- Conversion of a C int value to uint32_t: reduction modulo 2 ^ 32 (the
percent operator on Int is the Euclidean remainder, nonnegative here). -/
def toU32 (i : Int) : Nat := (i % (U32 : Int)).toNat

/-- Round-toward-zero division for a positive divisor: the effect of the
C++ conversions double-to-int in the estimator updates (each compound
assignment computes an exact dyadic rational and truncates it toward zero when
storing into the int field). -/
def truncDiv (a b : Int) : Int :=
  if 0 ≤ a then ((a.toNat / b.toNat : Nat) : Int)
  else -(((-a).toNat / b.toNat : Nat) : Int)

/-- ReliableSocket::set_timeout_length(uint32_t): records the SO_RCVTIMEO
value. -/
def set_timeout_length (s : ReliableSocket) (t : Nat) : ReliableSocket :=
  { s with timeout_length := t }

/-- The timeout value the source repeatedly computes and applies:
estimated_rtt + 4 * dev_rtt, converted to uint32_t. -/
def timeoutOf (s : ReliableSocket) : Nat :=
  toU32 (s.estimated_rtt + 4 * s.dev_rtt)

/-- ReliableSocket::set_estimated_rtt(): the estimator update, performed on
int fields with double intermediates.  Each step is exact in double (all
values are dyadic rationals of denominator at most 8 well below 2 ^ 52) and is
truncated toward zero when stored back into the int field:
estimated_rtt *= (1 - 0.125); estimated_rtt += current_rtt * 0.125;
dev_rtt *= (1 - 0.25); abs_dev = |current_rtt - estimated_rtt| (with the
already-updated estimated_rtt); dev_rtt += abs_dev * 0.25; finally
set_timeout_length(estimated_rtt + 4 * dev_rtt). -/
def set_estimated_rtt (s : ReliableSocket) : ReliableSocket :=
  let est1 := truncDiv (s.estimated_rtt * 7) 8
  let est2 := truncDiv (est1 * 8 + s.current_rtt) 8
  let dev1 := truncDiv (s.dev_rtt * 3) 4
  let ad := s.current_rtt - est2
  let abs_dev := if ad < 0 then -ad else ad
  let dev2 := truncDiv (dev1 * 4 + abs_dev) 4
  { s with estimated_rtt := est2
           dev_rtt := dev2
           timeout_length := toU32 (est2 + 4 * dev2) }

/-- Outcome of one recv() call in a loop of the source. -/
inductive RecvOutcome where
  | timeout
  | err
  | seg (reply : Segment) (rtt : Int)
  deriving DecidableEq, Repr

/-- One completed iteration of a send-then-receive loop: whether the send()
call failed (returned a negative count), and what recv() produced.  For a
reply, rtt is the elapsed time current_msec() - time_sent measured by the
source for that iteration. -/
structure Iter where
  sendFail : Bool
  recv : RecvOutcome
  deriving DecidableEq, Repr

/-- Result of ReliableSocket::reliable_send. -/
inductive RSOutcome where
  | reply (reply : Segment) (rtt : Int)
  | fatalExit
  | stillWaiting
  deriving DecidableEq, Repr

/-- Observable trace of a send loop: the segments passed to send(), and the
timeout values passed to set_timeout_length, in order. -/
structure RSTrace where
  sent : List Segment
  applied : List Nat
  deriving DecidableEq, Repr

/-- The retry loop of ReliableSocket::reliable_send.  Each iteration sends the
segment (a failed send is only reported via perror and the iteration
proceeds), then receives.  On a timeout (recv < 0 with errno EAGAIN) the
applied timeout becomes double the previous doubled value, or, on the first
timeout, 2 * (estimated_rtt + 4 * dev_rtt) (passed in as base2), and the same
segment is retried.  On any other recv error the process exits.  On a reply
the loop ends. -/
def reliable_send_go (seg : Segment) (base2 : Nat) :
    Bool → Nat → List Iter → RSOutcome × RSTrace
  | _, _, [] => (RSOutcome.stillWaiting, ⟨[], []⟩)
  | previous_timeout, doubled, it :: rest =>
    match it.recv with
    | RecvOutcome.timeout =>
      let d := if previous_timeout then (doubled * 2) % U32 else base2
      let r := reliable_send_go seg base2 true d rest
      (r.1, ⟨seg :: r.2.sent, d :: r.2.applied⟩)
    | RecvOutcome.err => (RSOutcome.fatalExit, ⟨[seg], []⟩)
    | RecvOutcome.seg reply rtt => (RSOutcome.reply reply rtt, ⟨[seg], []⟩)

/-- ReliableSocket::reliable_send: applies the estimator timeout, runs the
retry loop, and, when a reply arrives, stores the measured elapsed time into
current_rtt and updates the estimator via set_estimated_rtt — regardless of
whether earlier iterations timed out. -/
def reliable_send (s : ReliableSocket) (seg : Segment) (iters : List Iter) :
    ReliableSocket × RSOutcome × RSTrace :=
  let base := timeoutOf s
  let base2 := toU32 (2 * (s.estimated_rtt + 4 * s.dev_rtt))
  let s0 := set_timeout_length s base
  let r := reliable_send_go seg base2 false 0 iters
  let tr : RSTrace := ⟨r.2.sent, base :: r.2.applied⟩
  match r.1 with
  | RSOutcome.reply rep rtt =>
    (set_estimated_rtt { s0 with current_rtt := rtt },
      RSOutcome.reply rep rtt, tr)
  | out =>
    ({ s0 with timeout_length := List.getLastD (base :: r.2.applied) 0 },
      out, tr)

/-- Result of ReliableSocket::timeout_send. -/
inductive TSResult where
  | done
  | fatal
  | stillWaiting
  deriving DecidableEq, Repr

/-- ReliableSocket::timeout_send: sends the segment (a failed send is only
reported), applies the estimator timeout, and receives; a timeout is the
successful outcome, a reply means the peer is still retransmitting and the
loop repeats, any other recv error exits the process. -/
def timeout_send (seg : Segment) :
    ReliableSocket → List Iter → ReliableSocket × TSResult × List Segment × List Nat
  | s, [] => (s, TSResult.stillWaiting, [], [])
  | s, it :: rest =>
    let s1 := set_timeout_length s (timeoutOf s)
    match it.recv with
    | RecvOutcome.timeout => (s1, TSResult.done, [seg], [timeoutOf s])
    | RecvOutcome.err => (s1, TSResult.fatal, [seg], [timeoutOf s])
    | RecvOutcome.seg _ _ =>
      let r := timeout_send seg s1 rest
      (r.1, r.2.1, seg :: r.2.2.1, timeoutOf s :: r.2.2.2)

/-- Result of ReliableSocket::send_data. -/
inductive SDResult where
  | success
  | rejected
  | fatal
  | stillWaiting
  deriving DecidableEq, Repr

/-- The retry loop of ReliableSocket::send_data: one reliable_send per
attempt (each attempt consumes one inner trace); the loop ends only when the
reply is an RDT_ACK whose (ntohl-converted) ack_number equals the current
outbound sequence_number; any other reply retries the same segment.  Returns
the final socket state, the result, and all segments passed to send(). -/
def send_data_go (seg : Segment) :
    ReliableSocket → List (List Iter) → ReliableSocket × SDResult × List Segment
  | s, [] => (s, SDResult.stillWaiting, [])
  | s, tr :: rest =>
    let r := reliable_send s seg tr
    match r.2.1 with
    | RSOutcome.fatalExit => (r.1, SDResult.fatal, r.2.2.sent)
    | RSOutcome.stillWaiting => (r.1, SDResult.stillWaiting, r.2.2.sent)
    | RSOutcome.reply reply _ =>
      if reply.header.type = RDTMessageType.RDT_ACK then
        if s.sequence_number = reply.header.ack_number then
          (r.1, SDResult.success, r.2.2.sent)
        else
          let k := send_data_go seg r.1 rest
          (k.1, k.2.1, r.2.2.sent ++ k.2.2)
      else
        let k := send_data_go seg r.1 rest
        (k.1, k.2.1, r.2.2.sent ++ k.2.2)

/-- ReliableSocket::send_data: rejected without transmitting unless the state
is ESTABLISHED; otherwise wraps the payload in an RDT_DATA segment carrying
the current sequence_number (ack_number 0), runs the retry loop, and on
success increments the 32-bit sequence_number. -/
def send_data (s : ReliableSocket) (payload : List Nat)
    (trs : List (List Iter)) : ReliableSocket × SDResult × List Segment :=
  if s.state = connection_status.ESTABLISHED then
    let seg : Segment := ⟨⟨s.sequence_number, 0, RDTMessageType.RDT_DATA⟩, payload⟩
    let r := send_data_go seg s trs
    match r.2.1 with
    | SDResult.success =>
      ({ r.1 with sequence_number := (r.1.sequence_number + 1) % U32 },
        SDResult.success, r.2.2)
    | out => (r.1, out, r.2.2)
  else (s, SDResult.rejected, [])

/-- Result of ReliableSocket::receive_data. -/
inductive RDResult where
  | delivered (payload : List Nat)
  | eos
  | rejected
  | fatal
  | stillWaiting
  deriving DecidableEq, Repr

/-- The acknowledgment receive_data builds for a non-ACK, non-CLOSE segment:
both header counters hold the incoming segment's own sequence number (the
source copies the incoming wire bytes verbatim into both fields). -/
def ackFor (r : Segment) : Segment :=
  ⟨⟨r.header.sequence_number, r.header.sequence_number, RDTMessageType.RDT_ACK⟩, []⟩

/-- The main loop of ReliableSocket::receive_data.  Each event is a recv
outcome together with the send-failure flag of the acknowledgment that may
follow; closeTr is the timeout_send trace used if an RDT_CLOSE arrives.  Since
the receive timeout was disabled, any negative recv is fatal.  An RDT_ACK is
ignored.  An RDT_CLOSE is acknowledged via timeout_send and moves the state to
FIN (end of stream, returning 0 bytes).  Any other segment is acknowledged
immediately with ackFor; only when its sequence number equals the current
sequence_number is the payload delivered and the counter incremented,
otherwise the segment is dropped and the loop continues. -/
def receive_data_loop (closeTr : List Iter) :
    ReliableSocket → List (RecvOutcome × Bool) →
      ReliableSocket × RDResult × List Segment × List Nat
  | s, [] => (s, RDResult.stillWaiting, [], [])
  | s, (o, _) :: rest =>
    match o with
    | RecvOutcome.timeout => (s, RDResult.fatal, [], [])
    | RecvOutcome.err => (s, RDResult.fatal, [], [])
    | RecvOutcome.seg r _ =>
      match r.header.type with
      | RDTMessageType.RDT_ACK => receive_data_loop closeTr s rest
      | RDTMessageType.RDT_CLOSE =>
        let ackSeg : Segment := ⟨⟨0, 0, RDTMessageType.RDT_ACK⟩, []⟩
        let k := timeout_send ackSeg s closeTr
        match k.2.1 with
        | TSResult.done =>
          ({ k.1 with state := connection_status.FIN }, RDResult.eos,
            k.2.2.1, k.2.2.2)
        | TSResult.fatal => (k.1, RDResult.fatal, k.2.2.1, k.2.2.2)
        | TSResult.stillWaiting =>
          (k.1, RDResult.stillWaiting, k.2.2.1, k.2.2.2)
      | _ =>
        if r.header.sequence_number = s.sequence_number then
          ({ s with sequence_number := (s.sequence_number + 1) % U32 },
            RDResult.delivered r.payload, [ackFor r], [])
        else
          let k := receive_data_loop closeTr s rest
          (k.1, k.2.1, ackFor r :: k.2.2.1, k.2.2.2)

/-- ReliableSocket::receive_data: first disables the receive timeout (a
set_timeout_length(0) call that happens even before the state check), rejects
with 0 bytes unless ESTABLISHED, and otherwise runs the receive loop. -/
def receive_data (s : ReliableSocket) (closeTr : List Iter)
    (events : List (RecvOutcome × Bool)) :
    ReliableSocket × RDResult × List Segment × List Nat :=
  let s0 := set_timeout_length s 0
  if s0.state = connection_status.ESTABLISHED then
    let k := receive_data_loop closeTr s0 events
    (k.1, k.2.1, k.2.2.1, 0 :: k.2.2.2)
  else (s0, RDResult.rejected, [], [0])

/-- Result of ReliableSocket::connect_to_remote. -/
inductive ConnResult where
  | established
  | rejected
  | fatal
  | stillWaiting
  deriving DecidableEq, Repr

/-- The SYN segment of the active open (sequence 0, ack 0). -/
def synSeg : Segment := ⟨⟨0, 0, RDTMessageType.RDT_SYN⟩, []⟩

/-- The bare acknowledgment segment (sequence 0, ack 0). -/
def bareAck : Segment := ⟨⟨0, 0, RDTMessageType.RDT_ACK⟩, []⟩

/-- The CLOSE segment of the teardown paths (sequence 0, ack 0). -/
def closeSeg : Segment := ⟨⟨0, 0, RDTMessageType.RDT_CLOSE⟩, []⟩

/-- ReliableSocket::connect_to_remote: returns without contacting the peer
unless the state is INIT.  Otherwise applies the estimator timeout, sends the
SYN via reliable_send, and — whatever segment comes back (a non-SYNACK reply
only triggers a perror message and changes nothing) — sends the final
handshake ACK via timeout_send and moves the state to ESTABLISHED. -/
def connect_to_remote (s : ReliableSocket) (tr1 : List Iter)
    (tr2 : List Iter) : ReliableSocket × ConnResult × List Segment × List Nat :=
  if s.state = connection_status.INIT then
    let s0 := set_timeout_length s (timeoutOf s)
    let r := reliable_send s0 synSeg tr1
    match r.2.1 with
    | RSOutcome.fatalExit =>
      (r.1, ConnResult.fatal, r.2.2.sent, timeoutOf s :: r.2.2.applied)
    | RSOutcome.stillWaiting =>
      (r.1, ConnResult.stillWaiting, r.2.2.sent, timeoutOf s :: r.2.2.applied)
    | RSOutcome.reply _ _ =>
      let k := timeout_send bareAck r.1 tr2
      match k.2.1 with
      | TSResult.done =>
        ({ k.1 with state := connection_status.ESTABLISHED },
          ConnResult.established, r.2.2.sent ++ k.2.2.1,
          (timeoutOf s :: r.2.2.applied) ++ k.2.2.2)
      | TSResult.fatal =>
        (k.1, ConnResult.fatal, r.2.2.sent ++ k.2.2.1,
          (timeoutOf s :: r.2.2.applied) ++ k.2.2.2)
      | TSResult.stillWaiting =>
        (k.1, ConnResult.stillWaiting, r.2.2.sent ++ k.2.2.1,
          (timeoutOf s :: r.2.2.applied) ++ k.2.2.2)
  else (s, ConnResult.rejected, [], [])

/-- Result of a teardown phase. -/
inductive CCResult where
  | done
  | fatal
  | stillWaiting
  deriving DecidableEq, Repr

/-- First loop of ReliableSocket::send_close_connection: reliable_send the
CLOSE until the reply is an RDT_ACK or an RDT_CLOSE (a CLOSE in reply means
the peer is itself tearing down and its ACK was lost). -/
def close_phase1 :
    ReliableSocket → List (List Iter) →
      ReliableSocket × CCResult × List Segment × List Nat
  | s, [] => (s, CCResult.stillWaiting, [], [])
  | s, tr :: rest =>
    let r := reliable_send s closeSeg tr
    match r.2.1 with
    | RSOutcome.fatalExit => (r.1, CCResult.fatal, r.2.2.sent, r.2.2.applied)
    | RSOutcome.stillWaiting =>
      (r.1, CCResult.stillWaiting, r.2.2.sent, r.2.2.applied)
    | RSOutcome.reply reply _ =>
      if reply.header.type = RDTMessageType.RDT_ACK then
        (r.1, CCResult.done, r.2.2.sent, r.2.2.applied)
      else if reply.header.type = RDTMessageType.RDT_CLOSE then
        (r.1, CCResult.done, r.2.2.sent, r.2.2.applied)
      else
        let k := close_phase1 r.1 rest
        (k.1, k.2.1, r.2.2.sent ++ k.2.2.1, r.2.2.applied ++ k.2.2.2)

/-- Second loop of send_close_connection: bare recv calls, looping past any
negative recv (the else-if arm for non-EAGAIN errors is unreachable, because
the first arm already catches every negative count) and past any non-CLOSE
segment, until an RDT_CLOSE arrives. -/
def close_phase2 : List RecvOutcome → CCResult
  | [] => CCResult.stillWaiting
  | o :: rest =>
    match o with
    | RecvOutcome.timeout => close_phase2 rest
    | RecvOutcome.err => close_phase2 rest
    | RecvOutcome.seg r _ =>
      if r.header.type = RDTMessageType.RDT_CLOSE then CCResult.done
      else close_phase2 rest

/-- Third loop of send_close_connection (the TIME_WAIT window): send the final
ACK (a failed send is only reported), set the receive timeout to TIME_WAIT,
and receive.  Any arriving segment restarts the window (in particular every
retransmitted CLOSE causes the ACK to be resent); a timeout (EAGAIN) means the
window elapsed in silence and the loop ends successfully; any other recv error
exits the process. -/
def time_wait_loop :
    ReliableSocket → List Iter →
      ReliableSocket × CCResult × List Segment × List Nat
  | s, [] => (s, CCResult.stillWaiting, [], [])
  | s, it :: rest =>
    let s1 := set_timeout_length s TIME_WAIT
    match it.recv with
    | RecvOutcome.timeout => (s1, CCResult.done, [bareAck], [TIME_WAIT])
    | RecvOutcome.err => (s1, CCResult.fatal, [bareAck], [TIME_WAIT])
    | RecvOutcome.seg _ _ =>
      let k := time_wait_loop s1 rest
      (k.1, k.2.1, bareAck :: k.2.2.1, TIME_WAIT :: k.2.2.2)

/-- Trace input for the three loops of send_close_connection. -/
structure CloseTrace where
  phase1 : List (List Iter)
  phase2 : List RecvOutcome
  phase3 : List Iter
  deriving Repr

/-- ReliableSocket::send_close_connection: the three loops in sequence. -/
def send_close_connection (s : ReliableSocket) (tr : CloseTrace) :
    ReliableSocket × CCResult × List Segment × List Nat :=
  let p1 := close_phase1 s tr.phase1
  match p1.2.1 with
  | CCResult.done =>
    match close_phase2 tr.phase2 with
    | CCResult.done =>
      let p3 := time_wait_loop p1.1 tr.phase3
      (p3.1, p3.2.1, p1.2.2.1 ++ p3.2.2.1, p1.2.2.2 ++ p3.2.2.2)
    | out => (p1.1, out, p1.2.2.1, p1.2.2.2)
  | out => (p1.1, out, p1.2.2.1, p1.2.2.2)

/-- ReliableSocket::receive_close_connection: applies the estimator timeout,
then reliable_sends the CLOSE until the reply is an RDT_ACK. -/
def receive_close_connection :
    ReliableSocket → List (List Iter) →
      ReliableSocket × CCResult × List Segment × List Nat
  | s, [] => (s, CCResult.stillWaiting, [], [])
  | s, tr :: rest =>
    let r := reliable_send s closeSeg tr
    match r.2.1 with
    | RSOutcome.fatalExit => (r.1, CCResult.fatal, r.2.2.sent, r.2.2.applied)
    | RSOutcome.stillWaiting =>
      (r.1, CCResult.stillWaiting, r.2.2.sent, r.2.2.applied)
    | RSOutcome.reply reply _ =>
      if reply.header.type = RDTMessageType.RDT_ACK then
        (r.1, CCResult.done, r.2.2.sent, r.2.2.applied)
      else
        let k := receive_close_connection r.1 rest
        (k.1, k.2.1, r.2.2.sent ++ k.2.2.1, r.2.2.applied ++ k.2.2.2)

/-- ReliableSocket::close_connection: performs no state guard beyond choosing
a side — any state other than FIN (including INIT and CLOSED) takes the
sender-side send_close_connection, FIN takes receive_close_connection; when
the chosen side completes, the state becomes CLOSED and the descriptor is
closed. -/
def close_connection (s : ReliableSocket) (tr : CloseTrace)
    (rtr : List (List Iter)) : ReliableSocket × CCResult × List Segment × List Nat :=
  let r :=
    if s.state = connection_status.FIN then receive_close_connection s rtr
    else send_close_connection s tr
  match r.2.1 with
  | CCResult.done =>
    ({ r.1 with state := connection_status.CLOSED, sock_open := false },
      CCResult.done, r.2.2.1, r.2.2.2)
  | out => (r.1, out, r.2.2.1, r.2.2.2)

/-- The estimator update exactly as the specification words it, in exact
rational arithmetic:
estimated_rtt = (1 - 0.125) * estimated_rtt + 0.125 * current_rtt, then
dev_rtt = (1 - 0.25) * dev_rtt + 0.25 * |current_rtt - estimated_rtt| (with
the already-updated estimated_rtt, matching the sequential assignments). -/
def record_sample_spec (est dev crtt : ℚ) : ℚ × ℚ :=
  let est' := (1 - 1/8) * est + (1/8) * crtt
  let dev' := (1 - 1/4) * dev + (1/4) * |crtt - est'|
  (est', dev')

/-- Closed form of the truncated estimator update on nonnegative inputs: the
new estimated_rtt, with each store into the int field truncating. -/
def estUpdate (e c : ℕ) : ℕ := 7 * e / 8 + c / 8

/-- Closed form of the truncated estimator update: the new dev_rtt. -/
def devUpdate (e d c : ℕ) : ℕ :=
  3 * d / 4 + ((c : Int) - (estUpdate e c : Int)).natAbs / 4

/-- The sequence of timeout values a run of n consecutive receive timeouts
applies, starting from a previously applied value t: each entry is double the
previous applied value, in uint32_t arithmetic. -/
def doubledTimeouts (t : Nat) : Nat → List Nat
  | 0 => []
  | n + 1 => (t * 2 % U32) :: doubledTimeouts (t * 2 % U32) n

theorem toU32_natCast (n : ℕ) : toU32 (n : Int) = n % U32 := by
  unfold toU32
  rw [← Int.ofNat_emod, Int.toNat_natCast]

theorem toU32_lt (i : Int) : toU32 i < U32 := by
  unfold toU32
  have h0 : (0 : Int) < (U32 : Int) := by decide
  have h1 := Int.emod_lt_of_pos i h0
  omega

theorem toU32_two_mul (x : Int) : toU32 (2 * x) = 2 * toU32 x % U32 := by
  unfold toU32
  have h2 := Int.emod_nonneg x (by decide : (U32 : Int) ≠ 0)
  have h3 : (2 * x) % (U32 : Int) = (2 * (x % (U32 : Int))) % (U32 : Int) := by
    conv_lhs => rw [Int.mul_emod]
    conv_rhs => rw [Int.mul_emod, Int.emod_emod_of_dvd x (dvd_refl (U32 : Int))]
  rw [h3]
  have h4 : x % (U32 : Int) = ((x % (U32 : Int)).toNat : Int) := by omega
  rw [h4]
  rw [show (2 : Int) * ((x % (U32 : Int)).toNat : Int)
      = ((2 * (x % (U32 : Int)).toNat : ℕ) : Int) by push_cast; ring]
  rw [← Int.ofNat_emod, Int.toNat_natCast, Int.toNat_natCast]

theorem truncDiv_natCast (m n : ℕ) :
    truncDiv (m : Int) (n : Int) = ((m / n : ℕ) : Int) := by
  simp [truncDiv, Int.toNat_natCast]

theorem ite_neg_natAbs (a : Int) : (if a < 0 then -a else a) = (a.natAbs : Int) := by
  split <;> omega

theorem truncDiv8 (m : ℕ) : truncDiv (m : Int) 8 = ((m / 8 : ℕ) : Int) := by
  simpa using truncDiv_natCast m 8

theorem truncDiv4 (m : ℕ) : truncDiv (m : Int) 4 = ((m / 4 : ℕ) : Int) := by
  simpa using truncDiv_natCast m 4

/-- C3 (counterexample): the claim asserts the exact real-arithmetic update
estimated_rtt = (1 - 0.125) * estimated_rtt + 0.125 * current_rtt, but the
source performs the update on int fields, truncating: from the initial
estimator (100, 10), a recorded sample of 0 ms (delivered by a reliable_send
whose reply arrives with zero measured elapsed time) yields 87, while the
exact formula yields 87.5. -/
theorem rtt_update_not_exact :
    (((reliable_send { ReliableSocket.init with state := connection_status.ESTABLISHED }
        synSeg [⟨false, RecvOutcome.seg bareAck 0⟩]).1.estimated_rtt : ℚ))
      ≠ (record_sample_spec 100 10 0).1 := by
  have h : (reliable_send { ReliableSocket.init with state := connection_status.ESTABLISHED }
      synSeg [⟨false, RecvOutcome.seg bareAck 0⟩]).1.estimated_rtt = 87 := by decide
  rw [h]
  norm_num [record_sample_spec, abs]

/-- C3 (amended): recording a sample updates the estimator by those same
formulas evaluated in C int arithmetic — every compound assignment truncates
its exact dyadic-rational value toward zero when storing into the int field —
so on the nonnegative reachable values the update is
estimated_rtt = trunc(trunc(0.875 * est) + 0.125 * crtt) = 7e/8 + c/8 and
dev_rtt = trunc(trunc(0.75 * dev) + 0.25 * |crtt - est'|) = 3d/4 + |c - est'|/4
in natural-number division; the timeout applied afterwards is
estimated_rtt + 4 * dev_rtt (as uint32_t), and the estimator starts at
estimated_rtt = 100 ms, dev_rtt = 10 ms, current_rtt = 0. -/
theorem set_estimated_rtt_truncated (e d c : ℕ) :
    (set_estimated_rtt { ReliableSocket.init with
        state := connection_status.ESTABLISHED, estimated_rtt := (e : Int),
        dev_rtt := (d : Int), current_rtt := (c : Int) }).estimated_rtt
      = (estUpdate e c : Int) ∧
    (set_estimated_rtt { ReliableSocket.init with
        state := connection_status.ESTABLISHED, estimated_rtt := (e : Int),
        dev_rtt := (d : Int), current_rtt := (c : Int) }).dev_rtt
      = (devUpdate e d c : Int) ∧
    (set_estimated_rtt { ReliableSocket.init with
        state := connection_status.ESTABLISHED, estimated_rtt := (e : Int),
        dev_rtt := (d : Int), current_rtt := (c : Int) }).timeout_length
      = (estUpdate e c + 4 * devUpdate e d c) % U32 ∧
    ReliableSocket.init.estimated_rtt = 100 ∧
    ReliableSocket.init.dev_rtt = 10 ∧
    ReliableSocket.init.current_rtt = 0 := by
  have h1 : truncDiv ((e : Int) * 7) 8 = ((7 * e / 8 : ℕ) : Int) := by
    rw [show ((e : Int) * 7) = ((7 * e : ℕ) : Int) by push_cast; ring]
    exact truncDiv8 (7 * e)
  have hmad : (7 * e / 8 * 8 + c) / 8 = estUpdate e c := by
    unfold estUpdate
    rw [Nat.mul_comm (7 * e / 8) 8]
    exact Nat.mul_add_div (by norm_num) _ _
  have h2 : truncDiv (((7 * e / 8 : ℕ) : Int) * 8 + (c : Int)) 8
      = ((estUpdate e c : ℕ) : Int) := by
    rw [show (((7 * e / 8 : ℕ) : Int) * 8 + (c : Int))
        = ((7 * e / 8 * 8 + c : ℕ) : Int) by push_cast; ring]
    rw [truncDiv8, hmad]
  have h3 : truncDiv ((d : Int) * 3) 4 = ((3 * d / 4 : ℕ) : Int) := by
    rw [show ((d : Int) * 3) = ((3 * d : ℕ) : Int) by push_cast; ring]
    exact truncDiv4 (3 * d)
  have h4 := ite_neg_natAbs ((c : Int) - ((estUpdate e c : ℕ) : Int))
  have hmad2 : (3 * d / 4 * 4 + ((c : Int) - ((estUpdate e c : ℕ) : Int)).natAbs) / 4
      = devUpdate e d c := by
    unfold devUpdate
    rw [Nat.mul_comm (3 * d / 4) 4]
    exact Nat.mul_add_div (by norm_num) _ _
  have h5 : truncDiv (((3 * d / 4 : ℕ) : Int) * 4
        + (((c : Int) - ((estUpdate e c : ℕ) : Int)).natAbs : Int)) 4
      = ((devUpdate e d c : ℕ) : Int) := by
    rw [show (((3 * d / 4 : ℕ) : Int) * 4
          + (((c : Int) - ((estUpdate e c : ℕ) : Int)).natAbs : Int))
        = ((3 * d / 4 * 4 + ((c : Int) - ((estUpdate e c : ℕ) : Int)).natAbs : ℕ) : Int) by
      push_cast; ring]
    rw [truncDiv4, hmad2]
  have h6 : toU32 (((estUpdate e c : ℕ) : Int) + 4 * ((devUpdate e d c : ℕ) : Int))
      = (estUpdate e c + 4 * devUpdate e d c) % U32 := by
    rw [show (((estUpdate e c : ℕ) : Int) + 4 * ((devUpdate e d c : ℕ) : Int))
        = ((estUpdate e c + 4 * devUpdate e d c : ℕ) : Int) by push_cast; ring]
    exact toU32_natCast _
  refine ⟨?_, ?_, ?_, rfl, rfl, rfl⟩ <;>
    (simp only [set_estimated_rtt]; simp only [h1, h2, h3, h4, h5, h6])

/-- C4 (counterexample): the claim asserts that an exchange in which the
segment timed out and was retransmitted before the reply arrived never feeds
a sample into the estimator; but after one timeout followed by a reply
(measured elapsed time 50 ms) reliable_send updates estimated_rtt from its
initial 100 to 93. -/
theorem rtt_sample_after_timeout_cex :
    (reliable_send { ReliableSocket.init with state := connection_status.ESTABLISHED }
        synSeg [⟨false, RecvOutcome.timeout⟩, ⟨false, RecvOutcome.seg bareAck 50⟩]).1.estimated_rtt
      ≠ ReliableSocket.init.estimated_rtt := by decide

theorem reliable_send_go_timeouts_then (seg reply : Segment) (b2 : Nat) (rtt : Int) :
    ∀ (n : ℕ) (p : Bool) (d : Nat),
      (reliable_send_go seg b2 p d
          (List.replicate n ⟨false, RecvOutcome.timeout⟩
            ++ [⟨false, RecvOutcome.seg reply rtt⟩])).1
        = RSOutcome.reply reply rtt := by
  intro n
  induction n with
  | zero => intro p d; rfl
  | succ k ih =>
    intro p d
    rw [List.replicate_succ, List.cons_append]
    simp only [reliable_send_go]
    exact ih true _

/-- C4 (amended): the estimator is updated from the elapsed time of the last
(re)transmission whenever reliable_send obtains a reply, regardless of how
many receive timeouts (and retransmissions) intervened: after n timeouts and
a reply measured at rtt, the resulting socket state is exactly the state of
an exchange with no timeout at all and the same measurement. -/
theorem reliable_send_records_sample_despite_timeouts (s : ReliableSocket)
    (seg reply : Segment) (rtt : Int) (n : ℕ) :
    (reliable_send s seg (List.replicate n ⟨false, RecvOutcome.timeout⟩
        ++ [⟨false, RecvOutcome.seg reply rtt⟩])).1
      = (reliable_send s seg [⟨false, RecvOutcome.seg reply rtt⟩]).1 ∧
    (reliable_send s seg (List.replicate n ⟨false, RecvOutcome.timeout⟩
        ++ [⟨false, RecvOutcome.seg reply rtt⟩])).2.1 = RSOutcome.reply reply rtt := by
  have h := reliable_send_go_timeouts_then seg reply
    (toU32 (2 * (s.estimated_rtt + 4 * s.dev_rtt))) rtt n false 0
  constructor
  · simp only [reliable_send]
    rw [h]
    rfl
  · simp only [reliable_send]
    rw [h]

/-- C6 (counterexample): the header does not occupy 9 bytes on the wire and
the maximum payload is not 1391 bytes: struct RDTHeader has alignment 4, so
sizeof(RDTHeader) — the number of header bytes every transmission carries —
is 12, and MAX_DATA_SIZE = 1400 - 12 = 1388. -/
theorem header_size_cex : sizeofRDTHeader ≠ 9 ∧ MAX_DATA_SIZE ≠ 1391 := by decide

/-- C6 (amended): the header occupies sizeof(RDTHeader) = 12 bytes on the
wire — the 4-byte sequence number at offset 0, the 4-byte ack number at
offset 4 and the 1-byte type tag at offset 8, followed by 3 bytes of tail
padding — and the maximum DATA payload is MAX_SEG_SIZE - sizeof(RDTHeader)
= 1400 - 12 = 1388 bytes, a maximal DATA segment filling MAX_SEG_SIZE
exactly. -/
theorem header_layout_padded :
    sizeofRDTHeader = 12 ∧ structOffsets rdtHeaderFields = [0, 4, 8] ∧
    MAX_DATA_SIZE = 1388 ∧
    (∀ g : Segment, wireSize g = 12 + g.payload.length) ∧
    wireSize ⟨⟨0, 0, RDTMessageType.RDT_DATA⟩, List.replicate MAX_DATA_SIZE 0⟩
      = MAX_SEG_SIZE := by
  have h : sizeofRDTHeader = 12 := by decide
  refine ⟨by decide, by decide, by decide, ?_, ?_⟩
  · intro g
    simp [wireSize, h]
  · simp only [wireSize, List.length_replicate]
    decide

/-- C7 (counterexample): a transmit failure is not fatal to reliable_send: in
an exchange whose send() fails but whose recv() returns a reply, the
operation completes normally with that reply instead of terminating. -/
theorem send_failure_not_fatal_cex :
    (reliable_send { ReliableSocket.init with state := connection_status.ESTABLISHED }
        synSeg [⟨true, RecvOutcome.seg bareAck 50⟩]).2.1 = RSOutcome.reply bareAck 50 ∧
    (reliable_send { ReliableSocket.init with state := connection_status.ESTABLISHED }
        synSeg [⟨true, RecvOutcome.seg bareAck 50⟩]).2.1 ≠ RSOutcome.fatalExit := by
  decide

theorem reliable_send_go_ignores_sendFail (seg : Segment) (b2 : Nat) :
    ∀ (iters : List Iter) (p : Bool) (d : Nat),
      reliable_send_go seg b2 p d (iters.map (fun it => ⟨false, it.recv⟩))
        = reliable_send_go seg b2 p d iters := by
  intro iters
  induction iters with
  | nil => intro p d; rfl
  | cons it rest ih =>
    intro p d
    cases it with
    | mk sf o => cases o <;> simp [reliable_send_go, ih]

/-- C7 (amended): in reliable_send only a non-timeout receive error is fatal:
it terminates the operation after a single transmission, with no retry; a
transmit failure, by contrast, is merely reported — the outcome of
reliable_send is entirely independent of which send() calls failed. -/
theorem reliable_send_error_handling :
    (∀ (s : ReliableSocket) (seg : Segment) (sf : Bool) (rest : List Iter),
        (reliable_send s seg (⟨sf, RecvOutcome.err⟩ :: rest)).2.1 = RSOutcome.fatalExit ∧
        (reliable_send s seg (⟨sf, RecvOutcome.err⟩ :: rest)).2.2.sent = [seg]) ∧
    (∀ (s : ReliableSocket) (seg : Segment) (iters : List Iter),
        reliable_send s seg (iters.map (fun it => ⟨false, it.recv⟩))
          = reliable_send s seg iters) := by
  constructor
  · intro s seg sf rest
    exact ⟨rfl, rfl⟩
  · intro s seg iters
    simp only [reliable_send]
    rw [reliable_send_go_ignores_sendFail]

theorem reliable_send_go_all_timeouts_true (seg : Segment) (b2 : Nat) :
    ∀ (n : ℕ) (d : Nat),
      reliable_send_go seg b2 true d (List.replicate n ⟨false, RecvOutcome.timeout⟩)
        = (RSOutcome.stillWaiting,
            ⟨List.replicate n seg, doubledTimeouts d n⟩) := by
  intro n
  induction n with
  | zero => intro d; rfl
  | succ k ih =>
    intro d
    rw [List.replicate_succ]
    simp only [reliable_send_go, if_pos, doubledTimeouts, ih (d * 2 % U32)]
    rfl

theorem reliable_send_go_all_timeouts_false (seg : Segment) (b b2 : Nat)
    (hb2 : b2 = b * 2 % U32) :
    ∀ (n : ℕ),
      reliable_send_go seg b2 false 0 (List.replicate n ⟨false, RecvOutcome.timeout⟩)
        = (RSOutcome.stillWaiting,
            ⟨List.replicate n seg, doubledTimeouts b n⟩) := by
  intro n
  cases n with
  | zero => rfl
  | succ k =>
    rw [List.replicate_succ]
    simp only [reliable_send_go]
    rw [if_neg (by decide : ¬(false = true))]
    rw [reliable_send_go_all_timeouts_true seg b2 k b2]
    simp only [doubledTimeouts, ← hb2, List.replicate_succ]

theorem doubledTimeouts_chain (n : ℕ) :
    ∀ t, List.Chain' (fun a b => b = 2 * a % U32) (t :: doubledTimeouts t n) := by
  induction n with
  | zero => intro t; simp [doubledTimeouts]
  | succ k ih =>
    intro t
    rw [show doubledTimeouts t (k + 1)
        = (t * 2 % U32) :: doubledTimeouts (t * 2 % U32) k from rfl]
    rw [List.chain'_cons]
    exact ⟨by rw [Nat.mul_comm], ih (t * 2 % U32)⟩

/-- C5: in reliable_send every receive timeout retransmits the same segment
with an applied timeout equal to double the previously applied value in
uint32_t arithmetic (the doubledTimeouts sequence starts from the initially
applied estimator timeout and doubles the last applied value at each step,
not the estimator base), and no finite number of consecutive timeouts
terminates the operation — after n timeouts it is still retrying. -/
theorem reliable_send_timeout_doubling (s : ReliableSocket) (seg : Segment) (n : ℕ) :
    (reliable_send s seg (List.replicate n ⟨false, RecvOutcome.timeout⟩)).2.1
      = RSOutcome.stillWaiting ∧
    (reliable_send s seg (List.replicate n ⟨false, RecvOutcome.timeout⟩)).2.2.sent
      = List.replicate n seg ∧
    (reliable_send s seg (List.replicate n ⟨false, RecvOutcome.timeout⟩)).2.2.applied
      = timeoutOf s :: doubledTimeouts (timeoutOf s) n ∧
    List.Chain' (fun a b => b = 2 * a % U32)
      ((reliable_send s seg (List.replicate n ⟨false, RecvOutcome.timeout⟩)).2.2.applied) := by
  have hb2 : toU32 (2 * (s.estimated_rtt + 4 * s.dev_rtt)) = timeoutOf s * 2 % U32 := by
    rw [toU32_two_mul, Nat.mul_comm 2 (toU32 (s.estimated_rtt + 4 * s.dev_rtt))]
    rfl
  have hgo := reliable_send_go_all_timeouts_false seg (timeoutOf s)
    (toU32 (2 * (s.estimated_rtt + 4 * s.dev_rtt))) hb2 n
  refine ⟨?_, ?_, ?_, ?_⟩
  · simp only [reliable_send]
    rw [hgo]
  · simp only [reliable_send]
    rw [hgo]
  · simp only [reliable_send]
    rw [hgo]
  · simp only [reliable_send]
    rw [hgo]
    exact doubledTimeouts_chain n (timeoutOf s)

set_option maxRecDepth 8000 in
/-- C10: in the active open, whatever segment arrives in reply to the SYN —
of any type, in particular one that is not a SYNACK, which only triggers an
error message — connect_to_remote goes on to transmit the final handshake ACK
and moves the connection state to ESTABLISHED. -/
theorem connect_to_remote_any_reply (reply : Segment) (rtt : Int) :
    (connect_to_remote ReliableSocket.init [⟨false, RecvOutcome.seg reply rtt⟩]
        [⟨false, RecvOutcome.timeout⟩]).2.1 = ConnResult.established ∧
    (connect_to_remote ReliableSocket.init [⟨false, RecvOutcome.seg reply rtt⟩]
        [⟨false, RecvOutcome.timeout⟩]).1.state = connection_status.ESTABLISHED ∧
    (connect_to_remote ReliableSocket.init [⟨false, RecvOutcome.seg reply rtt⟩]
        [⟨false, RecvOutcome.timeout⟩]).2.2.1 = [synSeg, bareAck] :=
  ⟨rfl, rfl, rfl⟩

theorem reliable_send_single_reply (s : ReliableSocket) (seg reply : Segment)
    (rtt : Int) :
    reliable_send s seg [⟨false, RecvOutcome.seg reply rtt⟩]
      = (set_estimated_rtt { set_timeout_length s (timeoutOf s) with current_rtt := rtt },
          RSOutcome.reply reply rtt, ⟨[seg], [timeoutOf s]⟩) := rfl

theorem set_estimated_rtt_seq (s : ReliableSocket) :
    (set_estimated_rtt s).sequence_number = s.sequence_number := by
  simp [set_estimated_rtt]

theorem set_estimated_rtt_state (s : ReliableSocket) :
    (set_estimated_rtt s).state = s.state := by
  simp [set_estimated_rtt]

theorem send_data_go_append_wrongs (seg : Segment) :
    ∀ (wrongs : List Segment) (s : ReliableSocket) (rest : List (List Iter)),
      (∀ w ∈ wrongs,
        w.header.type ≠ RDTMessageType.RDT_ACK ∨ s.sequence_number ≠ w.header.ack_number) →
      ∃ s' : ReliableSocket,
        s'.sequence_number = s.sequence_number ∧ s'.state = s.state ∧
        send_data_go seg s
            (wrongs.map (fun r => [⟨false, RecvOutcome.seg r 1⟩]) ++ rest)
          = ((send_data_go seg s' rest).1, (send_data_go seg s' rest).2.1,
              List.replicate wrongs.length seg ++ (send_data_go seg s' rest).2.2)
  | [], s, rest, _ => ⟨s, rfl, rfl, rfl⟩
  | w :: ws, s, rest, hw => by
    have hw1 := hw w (List.mem_cons_self w ws)
    have hws : ∀ x ∈ ws,
        x.header.type ≠ RDTMessageType.RDT_ACK ∨ s.sequence_number ≠ x.header.ack_number :=
      fun x hx => hw x (List.mem_cons_of_mem w hx)
    rw [List.map_cons, List.cons_append]
    simp only [send_data_go, reliable_send_single_reply]
    have hseq : (set_estimated_rtt
        { set_timeout_length s (timeoutOf s) with current_rtt := 1 }).sequence_number
        = s.sequence_number := set_estimated_rtt_seq _
    have hstate : (set_estimated_rtt
        { set_timeout_length s (timeoutOf s) with current_rtt := 1 }).state
        = s.state := set_estimated_rtt_state _
    have hws' : ∀ x ∈ ws, x.header.type ≠ RDTMessageType.RDT_ACK ∨
        (set_estimated_rtt
          { set_timeout_length s (timeoutOf s) with current_rtt := 1 }).sequence_number
          ≠ x.header.ack_number := by
      rw [hseq]; exact hws
    obtain ⟨s', h1, h2, h3⟩ := send_data_go_append_wrongs seg ws
      (set_estimated_rtt { set_timeout_length s (timeoutOf s) with current_rtt := 1 })
      rest hws'
    refine ⟨s', by rw [h1, hseq], by rw [h2, hstate], ?_⟩
    rcases hw1 with htype | hack
    · rw [if_neg htype, h3]
      simp [List.replicate_succ]
    · by_cases ht : w.header.type = RDTMessageType.RDT_ACK
      · rw [if_pos ht, if_neg hack, h3]
        simp [List.replicate_succ]
      · rw [if_neg ht, h3]
        simp [List.replicate_succ]

/-- C2: in state ESTABLISHED, send_data wraps the payload in a DATA segment
carrying the current outbound sequence number and retries that same segment
for every reply that is not an ACK with the matching ack number (here: any
list of wrong replies followed by one matching ACK); only on the matching ACK
does it stop, incrementing the 32-bit outbound counter by exactly one — and
as long as only wrong replies arrive it never advances the counter. -/
theorem send_data_stop_and_wait (s : ReliableSocket) (payload : List Nat)
    (wrongs : List Segment) (good : Segment)
    (hst : s.state = connection_status.ESTABLISHED)
    (hw : ∀ w ∈ wrongs,
      w.header.type ≠ RDTMessageType.RDT_ACK ∨ s.sequence_number ≠ w.header.ack_number)
    (hg : good.header.type = RDTMessageType.RDT_ACK)
    (hga : good.header.ack_number = s.sequence_number) :
    (send_data s payload
        ((wrongs ++ [good]).map (fun r => [⟨false, RecvOutcome.seg r 1⟩]))).2.1
      = SDResult.success ∧
    (send_data s payload
        ((wrongs ++ [good]).map (fun r => [⟨false, RecvOutcome.seg r 1⟩]))).1.sequence_number
      = (s.sequence_number + 1) % U32 ∧
    (send_data s payload
        ((wrongs ++ [good]).map (fun r => [⟨false, RecvOutcome.seg r 1⟩]))).2.2
      = List.replicate (wrongs.length + 1)
          ⟨⟨s.sequence_number, 0, RDTMessageType.RDT_DATA⟩, payload⟩ ∧
    (send_data s payload (wrongs.map (fun r => [⟨false, RecvOutcome.seg r 1⟩]))).2.1
      = SDResult.stillWaiting ∧
    (send_data s payload (wrongs.map (fun r => [⟨false, RecvOutcome.seg r 1⟩]))).1.sequence_number
      = s.sequence_number := by
  obtain ⟨s', hseq, hstate, hrun⟩ := send_data_go_append_wrongs
    ⟨⟨s.sequence_number, 0, RDTMessageType.RDT_DATA⟩, payload⟩ wrongs s
    [[⟨false, RecvOutcome.seg good 1⟩]] hw
  obtain ⟨s2, hseq2, hstate2, hrun2⟩ := send_data_go_append_wrongs
    ⟨⟨s.sequence_number, 0, RDTMessageType.RDT_DATA⟩, payload⟩ wrongs s [] hw
  rw [List.append_nil] at hrun2
  have hgood : send_data_go ⟨⟨s.sequence_number, 0, RDTMessageType.RDT_DATA⟩, payload⟩
      s' [[⟨false, RecvOutcome.seg good 1⟩]]
      = (set_estimated_rtt { set_timeout_length s' (timeoutOf s') with current_rtt := 1 },
          SDResult.success,
          [⟨⟨s.sequence_number, 0, RDTMessageType.RDT_DATA⟩, payload⟩]) := by
    simp only [send_data_go, reliable_send_single_reply]
    rw [if_pos hg, if_pos (by rw [hseq, hga])]
  have hmap : (wrongs ++ [good]).map (fun r => [(⟨false, RecvOutcome.seg r 1⟩ : Iter)])
      = wrongs.map (fun r => [⟨false, RecvOutcome.seg r 1⟩])
        ++ [[⟨false, RecvOutcome.seg good 1⟩]] := by
    simp
  refine ⟨?_, ?_, ?_, ?_, ?_⟩
  · simp only [send_data]
    rw [if_pos hst, hmap, hrun, hgood]
  · simp only [send_data]
    rw [if_pos hst, hmap, hrun, hgood]
    simp [set_estimated_rtt, set_timeout_length, hseq]
  · simp only [send_data]
    rw [if_pos hst, hmap, hrun, hgood]
    show List.replicate wrongs.length
        (⟨⟨s.sequence_number, 0, RDTMessageType.RDT_DATA⟩, payload⟩ : Segment)
        ++ [⟨⟨s.sequence_number, 0, RDTMessageType.RDT_DATA⟩, payload⟩]
      = List.replicate (wrongs.length + 1)
        ⟨⟨s.sequence_number, 0, RDTMessageType.RDT_DATA⟩, payload⟩
    exact (List.replicate_succ' _ _).symm
  · simp only [send_data]
    rw [if_pos hst, hrun2]
    rfl
  · simp only [send_data]
    rw [if_pos hst, hrun2]
    exact hseq2

/-- Witness for send_data_stop_and_wait: a freshly established socket
(outbound counter 0) receiving the wrong reply ACK(ack = 7) and then the
matching ACK(ack = 0). -/
theorem send_data_stop_and_wait_witness :
    (send_data { ReliableSocket.init with state := connection_status.ESTABLISHED } [42]
        (([(⟨⟨7, 7, RDTMessageType.RDT_ACK⟩, []⟩ : Segment)]
            ++ [(⟨⟨0, 0, RDTMessageType.RDT_ACK⟩, []⟩ : Segment)]).map
          (fun r => [⟨false, RecvOutcome.seg r 1⟩]))).2.1
      = SDResult.success ∧
    (send_data { ReliableSocket.init with state := connection_status.ESTABLISHED } [42]
        (([(⟨⟨7, 7, RDTMessageType.RDT_ACK⟩, []⟩ : Segment)]
            ++ [(⟨⟨0, 0, RDTMessageType.RDT_ACK⟩, []⟩ : Segment)]).map
          (fun r => [⟨false, RecvOutcome.seg r 1⟩]))).1.sequence_number = 1 ∧
    (send_data { ReliableSocket.init with state := connection_status.ESTABLISHED } [42]
        (([(⟨⟨7, 7, RDTMessageType.RDT_ACK⟩, []⟩ : Segment)]
            ++ [(⟨⟨0, 0, RDTMessageType.RDT_ACK⟩, []⟩ : Segment)]).map
          (fun r => [⟨false, RecvOutcome.seg r 1⟩]))).2.2
      = List.replicate 2 ⟨⟨0, 0, RDTMessageType.RDT_DATA⟩, [42]⟩ := by
  have h := send_data_stop_and_wait
    { ReliableSocket.init with state := connection_status.ESTABLISHED } [42]
    [⟨⟨7, 7, RDTMessageType.RDT_ACK⟩, []⟩] ⟨⟨0, 0, RDTMessageType.RDT_ACK⟩, []⟩
    rfl (by decide) rfl rfl
  exact ⟨h.1, h.2.1, h.2.2.1⟩

theorem receive_data_loop_wrongs (closeTr : List Iter) :
    ∀ (wrongs : List Segment) (s : ReliableSocket) (rest : List (RecvOutcome × Bool)),
      (∀ w ∈ wrongs, w.header.type = RDTMessageType.RDT_DATA
        ∧ w.header.sequence_number ≠ s.sequence_number) →
      receive_data_loop closeTr s
          (wrongs.map (fun w => (RecvOutcome.seg w 1, false)) ++ rest)
        = ((receive_data_loop closeTr s rest).1,
            (receive_data_loop closeTr s rest).2.1,
            wrongs.map ackFor ++ (receive_data_loop closeTr s rest).2.2.1,
            (receive_data_loop closeTr s rest).2.2.2)
  | [], s, rest, _ => rfl
  | w :: ws, s, rest, hw => by
    have hw1 := hw w (List.mem_cons_self w ws)
    have hws : ∀ x ∈ ws, x.header.type = RDTMessageType.RDT_DATA
        ∧ x.header.sequence_number ≠ s.sequence_number :=
      fun x hx => hw x (List.mem_cons_of_mem w hx)
    rw [List.map_cons, List.cons_append]
    simp only [receive_data_loop]
    rw [hw1.1]
    simp only []
    rw [if_neg hw1.2]
    rw [receive_data_loop_wrongs closeTr ws s rest hws]
    simp [List.map_cons]

/-- C1: in state ESTABLISHED, every DATA segment processed by receive_data is
acknowledged immediately with an ACK carrying that segment's own sequence
number in both counter fields, but only a DATA segment whose sequence number
equals the receiver's expected counter is delivered and advances the counter
by one: across any run of non-matching (duplicate or out-of-order) DATA
segments nothing is delivered and the counter is unchanged, every one of them
being acknowledged; and a subsequent matching DATA segment is acknowledged,
delivered to the caller, and advances the 32-bit counter by one. -/
theorem receive_data_ack_and_deliver (s : ReliableSocket) (wrongs : List Segment)
    (d : Segment)
    (hs : s.state = connection_status.ESTABLISHED)
    (hw : ∀ w ∈ wrongs, w.header.type = RDTMessageType.RDT_DATA
      ∧ w.header.sequence_number ≠ s.sequence_number)
    (hd : d.header.type = RDTMessageType.RDT_DATA)
    (hdseq : d.header.sequence_number = s.sequence_number) :
    (receive_data s [] (wrongs.map (fun w => (RecvOutcome.seg w 1, false)))).2.1
      = RDResult.stillWaiting ∧
    (receive_data s [] (wrongs.map (fun w => (RecvOutcome.seg w 1, false)))).1.sequence_number
      = s.sequence_number ∧
    (receive_data s [] (wrongs.map (fun w => (RecvOutcome.seg w 1, false)))).2.2.1
      = wrongs.map ackFor ∧
    (receive_data s []
        ((wrongs ++ [d]).map (fun w => (RecvOutcome.seg w 1, false)))).2.1
      = RDResult.delivered d.payload ∧
    (receive_data s []
        ((wrongs ++ [d]).map (fun w => (RecvOutcome.seg w 1, false)))).1.sequence_number
      = (s.sequence_number + 1) % U32 ∧
    (receive_data s []
        ((wrongs ++ [d]).map (fun w => (RecvOutcome.seg w 1, false)))).2.2.1
      = wrongs.map ackFor ++ [ackFor d] := by
  have hs0 : (set_timeout_length s 0).state = connection_status.ESTABLISHED := hs
  have hw0 : ∀ w ∈ wrongs, w.header.type = RDTMessageType.RDT_DATA
      ∧ w.header.sequence_number ≠ (set_timeout_length s 0).sequence_number := hw
  have hrest : receive_data_loop [] (set_timeout_length s 0)
      [(RecvOutcome.seg d 1, false)]
      = ({ set_timeout_length s 0 with
            sequence_number := (s.sequence_number + 1) % U32 },
          RDResult.delivered d.payload, [ackFor d], []) := by
    simp only [receive_data_loop]
    rw [hd]
    simp only []
    rw [if_pos (show d.header.sequence_number
      = (set_timeout_length s 0).sequence_number from hdseq)]
    rfl
  have hmap : (wrongs ++ [d]).map (fun w => ((RecvOutcome.seg w 1 : RecvOutcome), false))
      = wrongs.map (fun w => (RecvOutcome.seg w 1, false))
        ++ [(RecvOutcome.seg d 1, false)] := by
    simp
  refine ⟨?_, ?_, ?_, ?_, ?_, ?_⟩
  · simp only [receive_data]
    rw [if_pos hs0]
    rw [show wrongs.map (fun w => ((RecvOutcome.seg w 1 : RecvOutcome), false))
        = wrongs.map (fun w => (RecvOutcome.seg w 1, false)) ++ [] by simp]
    rw [receive_data_loop_wrongs [] wrongs _ [] hw0]
    rfl
  · simp only [receive_data]
    rw [if_pos hs0]
    rw [show wrongs.map (fun w => ((RecvOutcome.seg w 1 : RecvOutcome), false))
        = wrongs.map (fun w => (RecvOutcome.seg w 1, false)) ++ [] by simp]
    rw [receive_data_loop_wrongs [] wrongs _ [] hw0]
    rfl
  · simp only [receive_data]
    rw [if_pos hs0]
    rw [show wrongs.map (fun w => ((RecvOutcome.seg w 1 : RecvOutcome), false))
        = wrongs.map (fun w => (RecvOutcome.seg w 1, false)) ++ [] by simp]
    rw [receive_data_loop_wrongs [] wrongs _ [] hw0]
    simp [receive_data_loop]
  · simp only [receive_data]
    rw [if_pos hs0, hmap, receive_data_loop_wrongs [] wrongs _ _ hw0, hrest]
  · simp only [receive_data]
    rw [if_pos hs0, hmap, receive_data_loop_wrongs [] wrongs _ _ hw0, hrest]
  · simp only [receive_data]
    rw [if_pos hs0, hmap, receive_data_loop_wrongs [] wrongs _ _ hw0, hrest]

/-- Witness for receive_data_ack_and_deliver: an established receiver
expecting sequence 0 sees an out-of-order DATA(seq = 5) followed by the
expected DATA(seq = 0, payload 42): both are acknowledged with their own
sequence numbers, only the second is delivered, and the counter advances
to 1. -/
theorem receive_data_ack_and_deliver_witness :
    (receive_data { ReliableSocket.init with state := connection_status.ESTABLISHED } []
        (([(⟨⟨5, 0, RDTMessageType.RDT_DATA⟩, [9]⟩ : Segment)]
            ++ [(⟨⟨0, 0, RDTMessageType.RDT_DATA⟩, [42]⟩ : Segment)]).map
          (fun w => (RecvOutcome.seg w 1, false)))).2.1
      = RDResult.delivered [42] ∧
    (receive_data { ReliableSocket.init with state := connection_status.ESTABLISHED } []
        (([(⟨⟨5, 0, RDTMessageType.RDT_DATA⟩, [9]⟩ : Segment)]
            ++ [(⟨⟨0, 0, RDTMessageType.RDT_DATA⟩, [42]⟩ : Segment)]).map
          (fun w => (RecvOutcome.seg w 1, false)))).1.sequence_number = 1 ∧
    (receive_data { ReliableSocket.init with state := connection_status.ESTABLISHED } []
        (([(⟨⟨5, 0, RDTMessageType.RDT_DATA⟩, [9]⟩ : Segment)]
            ++ [(⟨⟨0, 0, RDTMessageType.RDT_DATA⟩, [42]⟩ : Segment)]).map
          (fun w => (RecvOutcome.seg w 1, false)))).2.2.1
      = [ackFor ⟨⟨5, 0, RDTMessageType.RDT_DATA⟩, [9]⟩,
          ackFor ⟨⟨0, 0, RDTMessageType.RDT_DATA⟩, [42]⟩] := by
  have h := receive_data_ack_and_deliver
    { ReliableSocket.init with state := connection_status.ESTABLISHED }
    [⟨⟨5, 0, RDTMessageType.RDT_DATA⟩, [9]⟩] ⟨⟨0, 0, RDTMessageType.RDT_DATA⟩, [42]⟩
    rfl (by decide) rfl rfl
  exact ⟨h.2.2.2.1, h.2.2.2.2.1, h.2.2.2.2.2⟩

theorem close_phase1_single_ack (s : ReliableSocket) (r : Segment) (rtt : Int)
    (hr : r.header.type = RDTMessageType.RDT_ACK) :
    close_phase1 s [[⟨false, RecvOutcome.seg r rtt⟩]]
      = (set_estimated_rtt { set_timeout_length s (timeoutOf s) with current_rtt := rtt },
          CCResult.done, [closeSeg], [timeoutOf s]) := by
  simp only [close_phase1, reliable_send_single_reply]
  rw [if_pos hr]

theorem time_wait_loop_run (g : Segment) :
    ∀ (n : ℕ) (s : ReliableSocket),
      time_wait_loop s (List.replicate n ⟨false, RecvOutcome.seg g 1⟩
          ++ [⟨false, RecvOutcome.timeout⟩])
        = (set_timeout_length s TIME_WAIT, CCResult.done,
            List.replicate (n + 1) bareAck, List.replicate (n + 1) TIME_WAIT)
  | 0, s => rfl
  | n + 1, s => by
    rw [List.replicate_succ, List.cons_append]
    simp only [time_wait_loop]
    rw [time_wait_loop_run g n (set_timeout_length s TIME_WAIT)]
    rfl

theorem time_wait_loop_never (g : Segment) :
    ∀ (m : ℕ) (s : ReliableSocket),
      (time_wait_loop s (List.replicate m ⟨false, RecvOutcome.seg g 1⟩)).2.1
        = CCResult.stillWaiting
  | 0, _ => rfl
  | m + 1, s => by
    rw [List.replicate_succ]
    simp only [time_wait_loop]
    exact time_wait_loop_never g m (set_timeout_length s TIME_WAIT)

theorem time_wait_loop_state :
    ∀ (l : List Iter) (s : ReliableSocket), (time_wait_loop s l).1.state = s.state
  | [], _ => rfl
  | it :: rest, s => by
    rcases it with ⟨sf, o⟩
    cases o with
    | timeout => rfl
    | err => rfl
    | seg r rtt =>
      simp only [time_wait_loop]
      exact time_wait_loop_state rest (set_timeout_length s TIME_WAIT)

/-- C8: in self-initiated teardown from ESTABLISHED (the peer acknowledging
the CLOSE, then sending its own CLOSE), the socket sends the final ACK and
enters the fixed TIME_WAIT window of 4000 ms: each of the n further CLOSE
segments arriving during the window causes the ACK to be resent and the
4000 ms window to be applied anew, and when the window finally elapses in
silence the connection becomes CLOSED and the descriptor is released; if,
instead, segments keep arriving and the window never elapses, the operation
keeps waiting and the state never reaches CLOSED. -/
theorem time_wait_window (s : ReliableSocket) (g : Segment) (n m : ℕ)
    (hs : s.state = connection_status.ESTABLISHED)
    (hg : g.header.type = RDTMessageType.RDT_CLOSE) :
    TIME_WAIT = 4000 ∧
    (close_connection s
        ⟨[[⟨false, RecvOutcome.seg bareAck 1⟩]], [RecvOutcome.seg g 1],
          List.replicate n ⟨false, RecvOutcome.seg g 1⟩
            ++ [⟨false, RecvOutcome.timeout⟩]⟩ []).2.1 = CCResult.done ∧
    (close_connection s
        ⟨[[⟨false, RecvOutcome.seg bareAck 1⟩]], [RecvOutcome.seg g 1],
          List.replicate n ⟨false, RecvOutcome.seg g 1⟩
            ++ [⟨false, RecvOutcome.timeout⟩]⟩ []).1.state = connection_status.CLOSED ∧
    (close_connection s
        ⟨[[⟨false, RecvOutcome.seg bareAck 1⟩]], [RecvOutcome.seg g 1],
          List.replicate n ⟨false, RecvOutcome.seg g 1⟩
            ++ [⟨false, RecvOutcome.timeout⟩]⟩ []).1.sock_open = false ∧
    (close_connection s
        ⟨[[⟨false, RecvOutcome.seg bareAck 1⟩]], [RecvOutcome.seg g 1],
          List.replicate n ⟨false, RecvOutcome.seg g 1⟩
            ++ [⟨false, RecvOutcome.timeout⟩]⟩ []).2.2.1
      = closeSeg :: List.replicate (n + 1) bareAck ∧
    (close_connection s
        ⟨[[⟨false, RecvOutcome.seg bareAck 1⟩]], [RecvOutcome.seg g 1],
          List.replicate n ⟨false, RecvOutcome.seg g 1⟩
            ++ [⟨false, RecvOutcome.timeout⟩]⟩ []).2.2.2
      = timeoutOf s :: List.replicate (n + 1) TIME_WAIT ∧
    (close_connection s
        ⟨[[⟨false, RecvOutcome.seg bareAck 1⟩]], [RecvOutcome.seg g 1],
          List.replicate m ⟨false, RecvOutcome.seg g 1⟩⟩ []).2.1
      = CCResult.stillWaiting ∧
    (close_connection s
        ⟨[[⟨false, RecvOutcome.seg bareAck 1⟩]], [RecvOutcome.seg g 1],
          List.replicate m ⟨false, RecvOutcome.seg g 1⟩⟩ []).1.state
      = connection_status.ESTABLISHED := by
  have hfin : ¬(s.state = connection_status.FIN) := by rw [hs]; decide
  have hp1 := close_phase1_single_ack s bareAck 1 rfl
  have hp2 : close_phase2 [RecvOutcome.seg g 1] = CCResult.done := by
    simp only [close_phase2]
    rw [if_pos hg]
  refine ⟨rfl, ?_, ?_, ?_, ?_, ?_, ?_, ?_⟩
  · simp only [close_connection, send_close_connection]
    rw [if_neg hfin, hp1]
    simp only [hp2]
    rw [time_wait_loop_run]
  · simp only [close_connection, send_close_connection]
    rw [if_neg hfin, hp1]
    simp only [hp2]
    rw [time_wait_loop_run]
  · simp only [close_connection, send_close_connection]
    rw [if_neg hfin, hp1]
    simp only [hp2]
    rw [time_wait_loop_run]
  · simp only [close_connection, send_close_connection]
    rw [if_neg hfin, hp1]
    simp only [hp2]
    rw [time_wait_loop_run]
    rfl
  · simp only [close_connection, send_close_connection]
    rw [if_neg hfin, hp1]
    simp only [hp2]
    rw [time_wait_loop_run]
    rfl
  · simp only [close_connection, send_close_connection]
    rw [if_neg hfin, hp1]
    simp only [hp2]
    rw [time_wait_loop_never]
  · simp only [close_connection, send_close_connection]
    rw [if_neg hfin, hp1]
    simp only [hp2]
    rw [time_wait_loop_never, time_wait_loop_state]
    rw [set_estimated_rtt_state]
    exact hs

/-- Witness for time_wait_window: a freshly established socket tearing down,
with one retransmitted CLOSE arriving inside the TIME_WAIT window before the
window elapses in silence: the teardown completes, the state is CLOSED, and
the final ACK was sent twice. -/
theorem time_wait_window_witness :
    (close_connection { ReliableSocket.init with state := connection_status.ESTABLISHED }
        ⟨[[⟨false, RecvOutcome.seg bareAck 1⟩]], [RecvOutcome.seg closeSeg 1],
          List.replicate 1 ⟨false, RecvOutcome.seg closeSeg 1⟩
            ++ [⟨false, RecvOutcome.timeout⟩]⟩ []).2.1 = CCResult.done ∧
    (close_connection { ReliableSocket.init with state := connection_status.ESTABLISHED }
        ⟨[[⟨false, RecvOutcome.seg bareAck 1⟩]], [RecvOutcome.seg closeSeg 1],
          List.replicate 1 ⟨false, RecvOutcome.seg closeSeg 1⟩
            ++ [⟨false, RecvOutcome.timeout⟩]⟩ []).1.state = connection_status.CLOSED ∧
    (close_connection { ReliableSocket.init with state := connection_status.ESTABLISHED }
        ⟨[[⟨false, RecvOutcome.seg bareAck 1⟩]], [RecvOutcome.seg closeSeg 1],
          List.replicate 1 ⟨false, RecvOutcome.seg closeSeg 1⟩
            ++ [⟨false, RecvOutcome.timeout⟩]⟩ []).2.2.1
      = closeSeg :: List.replicate 2 bareAck := by
  have h := time_wait_window
    { ReliableSocket.init with state := connection_status.ESTABLISHED }
    closeSeg 1 1 rfl rfl
  exact ⟨h.2.1, h.2.2.1, h.2.2.2.2.1⟩

/-- C9 (counterexample): close_connection invoked in state INIT — before any
handshake, a state in which teardown is forbidden — is not rejected: it takes
the sender side of the teardown and transmits a CLOSE segment to the peer. -/
theorem close_connection_transmits_in_INIT_cex :
    ReliableSocket.init.state = connection_status.INIT ∧
    (close_connection ReliableSocket.init
        ⟨[[⟨false, RecvOutcome.timeout⟩]], [], []⟩ []).2.2.1 ≠ [] := by decide

/-- C9 (amended): send_data and receive_data invoked outside ESTABLISHED, and
connect_to_remote invoked outside INIT, are rejected without transmitting any
segment (send_data and connect_to_remote also leave the socket state
untouched; receive_data still clears the receive timeout first); but
close_connection performs no such guard — called in INIT it runs the
sender-side teardown and transmits the CLOSE segment. -/
theorem wrong_state_guards :
    (∀ (s : ReliableSocket) (payload : List Nat) (trs : List (List Iter)),
        s.state ≠ connection_status.ESTABLISHED →
          (send_data s payload trs).2.2 = [] ∧ (send_data s payload trs).1 = s ∧
          (send_data s payload trs).2.1 = SDResult.rejected) ∧
    (∀ (s : ReliableSocket) (closeTr : List Iter) (events : List (RecvOutcome × Bool)),
        s.state ≠ connection_status.ESTABLISHED →
          (receive_data s closeTr events).2.2.1 = [] ∧
          (receive_data s closeTr events).2.1 = RDResult.rejected) ∧
    (∀ (s : ReliableSocket) (tr1 tr2 : List Iter),
        s.state ≠ connection_status.INIT →
          (connect_to_remote s tr1 tr2).2.2.1 = [] ∧
          (connect_to_remote s tr1 tr2).1 = s) ∧
    (close_connection ReliableSocket.init
        ⟨[[⟨false, RecvOutcome.timeout⟩]], [], []⟩ []).2.2.1 = [closeSeg] := by
  refine ⟨?_, ?_, ?_, by decide⟩
  · intro s payload trs h
    simp only [send_data]
    rw [if_neg h]
    exact ⟨rfl, rfl, rfl⟩
  · intro s closeTr events h
    simp only [receive_data]
    rw [if_neg (show ¬((set_timeout_length s 0).state = connection_status.ESTABLISHED) from h)]
    exact ⟨rfl, rfl⟩
  · intro s tr1 tr2 h
    simp only [connect_to_remote]
    rw [if_neg h]
    exact ⟨rfl, rfl⟩

/-- Witness for wrong_state_guards: a fresh socket (state INIT) rejects
send_data and receive_data without transmitting, and a CLOSED socket rejects
connect_to_remote without transmitting. -/
theorem wrong_state_guards_witness :
    ReliableSocket.init.state ≠ connection_status.ESTABLISHED ∧
    (send_data ReliableSocket.init [1] []).2.2 = [] ∧
    (receive_data ReliableSocket.init [] []).2.1 = RDResult.rejected ∧
    ({ ReliableSocket.init with state := connection_status.CLOSED }
      : ReliableSocket).state ≠ connection_status.INIT ∧
    (connect_to_remote { ReliableSocket.init with
        state := connection_status.CLOSED } [] []).2.2.1 = [] := by
  have h := wrong_state_guards
  exact ⟨by decide, (h.1 ReliableSocket.init [1] [] (by decide)).1,
    (h.2.1 ReliableSocket.init [] [] (by decide)).2,
    by decide,
    (h.2.2.1 { ReliableSocket.init with state := connection_status.CLOSED } [] []
      (by decide)).1⟩
